import Mathlib

/-!
Verification development for the TeamForm component
(src/src/pages/team/TeamForm.jsx of DSS_Web_AdminPanel).

The component is a create/edit form for team-member records.  We embed
its validation schema, form state, the reset effect run after a
successful fetch, the image-preview effect, the multipart payload
construction, and the submit dispatch as pure Lean functions, and prove
the specified properties about them.
-/

namespace TeamForm

/-- Modelled from the spec: the API layer (team.api, outside src/) returns a
stored image reference as an object with optional `public_url` / `url`
fields (spec sections 3 and 6). -/
structure ImgRef where
  public_url : Option String
  url : Option String
deriving DecidableEq, Repr

/-- A JavaScript value that can sit in the form's `image` (or
`existingImage`) slot: `null` (the default value), `undefined` (a field
never written), a FileList from the file input (we record the selected
file names), or a stored image reference written by `reset` in edit mode.
The reference shape is modelled from the spec (see `ImgRef`). -/
inductive ImageValue where
  | jsNull
  | jsUndefined
  | files (names : List String)
  | ref (r : ImgRef)
deriving DecidableEq, Repr

/-- JS truthiness of an `ImageValue`: `null` and `undefined` are falsy;
any object (a FileList, even empty, or a reference object) is truthy. -/
def ImageValue.truthy : ImageValue → Bool
  | .jsNull => false
  | .jsUndefined => false
  | .files _ => true
  | .ref _ => true

/-- The JS property access `value.length`: defined (`some`) only on a
FileList; `undefined` (`none`) on a reference object, and unreachable on
`null`/`undefined` (the code only reads it behind a truthiness guard). -/
def ImageValue.lengthVal : ImageValue → Option Nat
  | .files fs => some fs.length
  | _ => none

/-- The guard `value && value.length > 0` used in the schema test, the
preview effect and `onSubmit` (`undefined > 0` is `false` in JS). -/
def ImageValue.selected (v : ImageValue) : Bool :=
  v.truthy && (match v.lengthVal with
    | some n => decide (0 < n)
    | none => false)

/-- The JS indexing `value[0]` on the image slot: the first file of a
FileList; `undefined` otherwise (unreachable behind `selected`). -/
def ImageValue.atZero : ImageValue → Option String
  | .files (g :: _) => some g
  | _ => none

/-- Spec-side notion: a new local file is selected exactly when the value
is a non-empty FileList. -/
def fileSelected : ImageValue → Bool
  | .files fs => decide (0 < fs.length)
  | _ => false

/-- JS truthiness of an optional string (the route `id`, form `id`):
`undefined` and the empty string are falsy. -/
def strTruthy : Option String → Bool
  | none => false
  | some s => s != ""

/-- The react-hook-form field values of the form.  `name`, `designation`,
`department`, `description` are the registered text fields; `image` is the
registered file-input field; `id` and `existingImage` are the hidden
fields written only by the `reset` call in the teamData effect. -/
structure FormValues where
  name : String
  designation : String
  department : String
  description : String
  image : ImageValue
  id : Option String
  existingImage : ImageValue
deriving DecidableEq, Repr

/-- `defaultValues` of the `useForm` call (TeamForm.jsx lines 52-58):
all text fields empty, `image: null`; `id` and `existingImage` are not
among the defaults, hence `undefined`. -/
def defaultValues : FormValues :=
  { name := ""
    designation := ""
    department := ""
    description := ""
    image := ImageValue.jsNull
    id := none
    existingImage := ImageValue.jsUndefined }

/-- The yup rule `yup.string().required("Name is required")`: fails
exactly on the empty string (form values are always strings here). -/
def validateName (n : String) : Option String :=
  if n = "" then some "Name is required" else none

/-- The yup rule `yup.string()` with no further constraints: passes for
every string value. -/
def validateOptionalString (_s : String) : Option String :=
  none

/-- The schema's custom image test (TeamForm.jsx lines 22-27):
`if (this.parent.id && this.parent.existingImage) return true;
 return value && value.length > 0;`. -/
def schemaImageTest (parentId : Option String) (parentExisting : ImageValue)
    (value : ImageValue) : Bool :=
  if strTruthy parentId && parentExisting.truthy then true
  else value.selected

/-- Image validation: when the test fails, the error "Image is required"
is produced. -/
def validateImage (f : FormValues) : Option String :=
  if schemaImageTest f.id f.existingImage f.image then none
  else some "Image is required"

/-- The per-field errors produced by the yup schema. -/
structure FieldErrors where
  name : Option String
  designation : Option String
  department : Option String
  description : Option String
  image : Option String
deriving DecidableEq, Repr

/-- Running the whole schema on the form values. -/
def validateForm (f : FormValues) : FieldErrors :=
  { name := validateName f.name
    designation := validateOptionalString f.designation
    department := validateOptionalString f.department
    description := validateOptionalString f.description
    image := validateImage f }

/-- The form is valid when no field has an error. -/
def formValid (f : FormValues) : Bool :=
  (validateForm f).name.isNone && (validateForm f).designation.isNone &&
  (validateForm f).department.isNone && (validateForm f).description.isNone &&
  (validateForm f).image.isNone

/-- A fetched team-member record (`teamData.data`).  String fields may be
missing (`none`); the image slot carries whatever the server returned
(absent, or a stored reference; see `ImageValue`). -/
structure TeamRecord where
  name : Option String
  designation : Option String
  department : Option String
  description : Option String
  image : ImageValue
deriving DecidableEq, Repr

/-- The JS idiom `x || ""` applied to a possibly-missing string. -/
def jsOrEmpty : Option String → String
  | some s => s
  | none => ""

/-- The `reset({...})` call in the teamData effect (TeamForm.jsx lines
67-75): text fields from the record with `|| ""` defaulting, `image` set
to the fetched image, and the hidden `id` and `existingImage` fields
written. -/
def resetValues (i : String) (d : TeamRecord) : FormValues :=
  { name := jsOrEmpty d.name
    designation := jsOrEmpty d.designation
    department := jsOrEmpty d.department
    description := jsOrEmpty d.description
    image := d.image
    id := some i
    existingImage := d.image }

/-- `setExistingImage(image || null)` (TeamForm.jsx line 77). -/
def existingImageState (d : TeamRecord) : ImageValue :=
  if d.image.truthy then d.image else ImageValue.jsNull

/-- The teamData effect (TeamForm.jsx lines 63-79): the reset runs only
when the route id is truthy and the fetch has delivered `teamData.data`;
otherwise form values and the existingImage state are left as they are. -/
def teamDataEffect (routeId : Option String) (fetched : Option TeamRecord)
    (current : FormValues) (currentExisting : ImageValue) :
    FormValues × ImageValue :=
  match fetched with
  | some d =>
      if strTruthy routeId then
        (resetValues ((routeId).getD "") d, existingImageState d)
      else (current, currentExisting)
  | none => (current, currentExisting)

/-- The image-preview effect (TeamForm.jsx lines 82-93): when
`watchedImage && watchedImage.length > 0`, the first file is read and the
preview becomes its data URL (modelled as a tagged file name); otherwise
`setImagePreview(null)`. -/
def previewEffect (watchedImage : ImageValue) : Option String :=
  if watchedImage.selected then
    match watchedImage.atZero with
    | some g => some ("dataUrl:" ++ g)
    | none => none
  else none

/-- The slice of component state the image section depends on. -/
structure UiState where
  existingImage : ImageValue
  imagePreview : Option String
deriving DecidableEq, Repr

/-- Re-running the preview effect after the watched image field changed:
only `imagePreview` is written; `existingImage` is untouched. -/
def onImageChange (s : UiState) (newWatched : ImageValue) : UiState :=
  { existingImage := s.existingImage
    imagePreview := previewEffect newWatched }

/-- What the image section renders (TeamForm.jsx lines 226-269): the new
preview block when a preview exists, the current-image block when
`existingImage` is truthy, and inside it the "will be replaced" note when
a preview also exists. -/
structure ImageSectionRender where
  newPreviewShown : Bool
  existingShown : Bool
  replaceNoteShown : Bool
deriving DecidableEq, Repr

def renderImageSection (imagePreview : Option String)
    (existingImage : ImageValue) : ImageSectionRender :=
  { newPreviewShown := imagePreview.isSome
    existingShown := existingImage.truthy
    replaceNoteShown := existingImage.truthy && imagePreview.isSome }

/-- The department select options (TeamForm.jsx lines 177-194) as
(value, label) pairs, in source order; the first is the disabled
placeholder. -/
def departmentOptions : List (String × String) :=
  [("", "Select department"),
   ("Sales", "Sales"),
   ("Design", "Design"),
   ("Development", "Production"),
   ("Marketing", "Marketing"),
   ("HR", "Human Resources"),
   ("Finance", "Finance"),
   ("Operations", "Operations"),
   ("Management", "Management"),
   ("Other", "Other")]

/-- An entry appended to the multipart `FormData` payload. -/
inductive PayloadEntry where
  | text (s : String)
  | file (name : String)
deriving DecidableEq, Repr

/-- The payload built by `onSubmit` (TeamForm.jsx lines 97-105): the four
text fields always, then `image: formData.image[0]` only behind the guard
`formData.image && formData.image.length > 0`.  (`value[0]` on a
non-FileList would append the string "undefined"; that branch is
unreachable behind the guard.) -/
def buildPayload (f : FormValues) : List (String × PayloadEntry) :=
  let base := [("name", PayloadEntry.text f.name),
               ("designation", PayloadEntry.text f.designation),
               ("department", PayloadEntry.text f.department),
               ("description", PayloadEntry.text f.description)]
  if f.image.selected then
    base ++ [("image", PayloadEntry.file (jsOrEmpty f.image.atZero))]
  else base

/-- `err?.data` shape of a rejected mutation. -/
structure ErrData where
  message : Option String
deriving DecidableEq, Repr

structure ApiError where
  data : Option ErrData
deriving DecidableEq, Repr

/-- `err?.data?.message || "Failed to save team member"` (line 117). -/
def errMsgOf (e : ApiError) : String :=
  match e.data with
  | some d =>
      match d.message with
      | some m => if m = "" then "Failed to save team member" else m
      | none => "Failed to save team member"
  | none => "Failed to save team member"

/-- Observable events of a submission attempt, in order. -/
inductive Event where
  | callCreate (payload : List (String × PayloadEntry))
  | callUpdate (i : String) (payload : List (String × PayloadEntry))
  | toastSuccess (msg : String)
  | toastError (msg : String)
  | navigate (route : String)
deriving DecidableEq, Repr

def Event.isCall : Event → Bool
  | .callCreate _ => true
  | .callUpdate _ _ => true
  | _ => false

def Event.isNavigate : Event → Bool
  | .navigate _ => true
  | _ => false

/-- Outcome of running the `onSubmit` handler: the emitted event trace
and the form state afterwards. -/
structure SubmitOutcome where
  trace : List Event
  formAfter : FormValues
deriving DecidableEq, Repr

/-- The `onSubmit` handler (TeamForm.jsx lines 95-119).  `result` is the
resolution of the single awaited mutation.  On `if (id)` (route-id
truthiness) the update mutation is dispatched with `{id, formData}`,
otherwise create; on resolution the success toast then `navigate("/team")`;
a rejection is caught and only the error toast is shown.  The handler
never touches field state, so `formAfter` is the input values. -/
def onSubmit (routeId : Option String) (f : FormValues)
    (result : Except ApiError Unit) : SubmitOutcome :=
  let payload := buildPayload f
  if strTruthy routeId then
    match result with
    | .ok _ =>
        { trace := [Event.callUpdate ((routeId).getD "") payload,
                    Event.toastSuccess "Team member updated successfully!",
                    Event.navigate "/team"]
          formAfter := f }
    | .error e =>
        { trace := [Event.callUpdate ((routeId).getD "") payload,
                    Event.toastError (errMsgOf e)]
          formAfter := f }
  else
    match result with
    | .ok _ =>
        { trace := [Event.callCreate payload,
                    Event.toastSuccess "Team member added successfully!",
                    Event.navigate "/team"]
          formAfter := f }
    | .error e =>
        { trace := [Event.callCreate payload,
                    Event.toastError (errMsgOf e)]
          formAfter := f }

/-- `handleSubmit(onSubmit)`: react-hook-form invokes the handler only
when the resolver reports the values valid; otherwise nothing runs. -/
def handleSubmit (routeId : Option String) (f : FormValues)
    (result : Except ApiError Unit) : Option SubmitOutcome :=
  if formValid f then some (onSubmit routeId f result) else none

end TeamForm

namespace TeamForm

/-- The guard `value && value.length > 0` holds exactly when a new local
file is selected: only a FileList is truthy with a numeric length. -/
theorem selected_eq_fileSelected (v : ImageValue) :
    v.selected = fileSelected v := by
  cases v <;> rfl

/-- C9: the department selector offers exactly the enumerated option
values (plus the empty placeholder), and the option with value
"Development" renders the visible label "Production". -/
theorem c9_department_options :
    departmentOptions.map Prod.fst =
      ["", "Sales", "Design", "Development", "Marketing", "HR", "Finance",
       "Operations", "Management", "Other"] ∧
    departmentOptions.lookup "Development" = some "Production" := by
  exact ⟨rfl, rfl⟩

/-- C7: name validation fails with "Name is required" exactly when the
name is empty; every non-empty name passes; designation, department and
description always pass. -/
theorem c7_name_validation :
    (∀ n : String, validateName n = some "Name is required" ↔ n = "") ∧
    (∀ n : String, n ≠ "" → validateName n = none) ∧
    (∀ f : FormValues,
        (validateForm f).designation = none ∧ (validateForm f).department = none ∧
        (validateForm f).description = none) := by
  refine ⟨fun n => ?_, fun n h => ?_, fun f => ⟨rfl, rfl, rfl⟩⟩
  · unfold validateName
    by_cases h : n = "" <;> simp [h]
  · simp [validateName, h]

/-- C7 witness. -/
theorem c7_name_validation_witness :
    (validateName "" = some "Name is required" ↔ ("" : String) = "") ∧
    validateName "Jane Doe" = none ∧
    (validateForm defaultValues).designation = none := by
  refine ⟨c7_name_validation.1 "", c7_name_validation.2.1 "Jane Doe" (by decide),
    (c7_name_validation.2.2 defaultValues).1⟩

end TeamForm

namespace TeamForm

/-- C1: image validation passes whenever the form carries both a truthy id
and a truthy existing stored image reference; otherwise it fails with
"Image is required" exactly when no file is selected.  In particular every
create-mode submission (form id never written) with no file selected is
blocked with that message, and after an edit-mode reset from a record with
an existing image, image validation passes with no new file selected. -/
theorem c1_image_validation_rule :
    (∀ f : FormValues, strTruthy f.id = true → f.existingImage.truthy = true →
        validateImage f = none) ∧
    (∀ f : FormValues, (strTruthy f.id && f.existingImage.truthy) = false →
        (validateImage f = some "Image is required" ↔ fileSelected f.image = false)) ∧
    (∀ (f : FormValues) (routeId : Option String) (result : Except ApiError Unit),
        f.id = none → fileSelected f.image = false →
        validateImage f = some "Image is required" ∧ formValid f = false ∧
        handleSubmit routeId f result = none) ∧
    (∀ (i : String) (d : TeamRecord), i ≠ "" → d.image.truthy = true →
        validateImage (resetValues i d) = none) := by
  have hsel : ∀ f : FormValues, (strTruthy f.id && f.existingImage.truthy) = false →
      (validateImage f = some "Image is required" ↔ fileSelected f.image = false) := by
    intro f h
    have htest : schemaImageTest f.id f.existingImage f.image = fileSelected f.image := by
      rw [schemaImageTest, h, selected_eq_fileSelected]
      simp
    rw [validateImage, htest]
    cases hfs : fileSelected f.image <;> simp [hfs]
  refine ⟨fun f h1 h2 => ?_, hsel, fun f routeId result h1 h2 => ?_, fun i d h1 h2 => ?_⟩
  · rw [validateImage, schemaImageTest, h1, h2]
    simp
  · have hand : (strTruthy f.id && f.existingImage.truthy) = false := by
      rw [h1]; rfl
    have himg : validateImage f = some "Image is required" := (hsel f hand).mpr h2
    have hvalid : formValid f = false := by
      rw [formValid, validateForm]
      simp [himg]
    exact ⟨himg, hvalid, by rw [handleSubmit, hvalid]; simp⟩
  · have hid : strTruthy (resetValues i d).id = true := by
      simp [resetValues, strTruthy, h1]
    have hex : (resetValues i d).existingImage.truthy = true := by
      simp [resetValues, h2]
    rw [validateImage, schemaImageTest, hid, hex]
    simp

/-- C1 witness. -/
theorem c1_image_validation_rule_witness :
    validateImage { defaultValues with
                      id := some "42"
                      existingImage := ImageValue.ref ⟨none, some "x.png"⟩ } = none ∧
    (validateImage defaultValues = some "Image is required" ↔
        fileSelected defaultValues.image = false) ∧
    (validateImage defaultValues = some "Image is required" ∧
        formValid defaultValues = false ∧
        handleSubmit none defaultValues (Except.ok ()) = none) ∧
    validateImage (resetValues "42"
        { name := some "John", designation := none, department := none,
          description := none, image := ImageValue.ref ⟨none, some "x.png"⟩ }) = none := by
  refine ⟨?_, ?_, ?_, ?_⟩
  · exact c1_image_validation_rule.1 _ (by decide) (by decide)
  · exact c1_image_validation_rule.2.1 _ (by decide)
  · exact c1_image_validation_rule.2.2.1 _ none (Except.ok ()) rfl (by decide)
  · exact c1_image_validation_rule.2.2.2 "42" _ (by decide) (by decide)

/-- C10: the hidden id and existingImage form values are written only by
the reset run on a fetched record, so with the default values (fetch
pending, failed, or create mode) and after a reset from a record without a
truthy image, the image validation behaves exactly as in create mode: a
new local file selection is required.  The teamData effect without fetched
data leaves the state unchanged. -/
theorem c10_bypass_requires_reset :
    (∀ v : ImageValue,
        validateImage { defaultValues with image := v } =
          (if fileSelected v then none else some "Image is required")) ∧
    (∀ (i : String) (d : TeamRecord) (v : ImageValue), d.image.truthy = false →
        validateImage { resetValues i d with image := v } =
          validateImage { defaultValues with image := v }) ∧
    (∀ (routeId : Option String) (cur : FormValues) (ce : ImageValue),
        teamDataEffect routeId none cur ce = (cur, ce)) := by
  refine ⟨fun v => ?_, fun i d v h => ?_, fun routeId cur ce => rfl⟩
  · rw [validateImage, schemaImageTest]
    simp [defaultValues, strTruthy, selected_eq_fileSelected]
  · rw [validateImage, validateImage, schemaImageTest, schemaImageTest]
    simp [resetValues, defaultValues, strTruthy, h]

/-- C10 witness. -/
theorem c10_bypass_requires_reset_witness :
    validateImage { defaultValues with image := ImageValue.files ["a.png"] } =
      (if fileSelected (ImageValue.files ["a.png"]) then none
       else some "Image is required") ∧
    validateImage { resetValues "42"
        { name := some "John", designation := none, department := none,
          description := none, image := ImageValue.jsNull } with
        image := ImageValue.jsNull } =
      validateImage { defaultValues with image := ImageValue.jsNull } ∧
    teamDataEffect (some "42") none defaultValues ImageValue.jsNull =
      (defaultValues, ImageValue.jsNull) := by
  refine ⟨c10_bypass_requires_reset.1 _, ?_, c10_bypass_requires_reset.2.2 _ _ _⟩
  exact c10_bypass_requires_reset.2.1 "42" _ ImageValue.jsNull (by decide)

end TeamForm

namespace TeamForm

/-- C2: the multipart payload always carries the four text fields with the
form's values, and carries an image entry exactly when a new local file is
selected; in particular, for the edit of record id "42" fetched as
name "John" with image reference url "x.png" and no new file selected,
the payload lacks an image field. -/
theorem c2_payload_contents :
    (∀ f : FormValues,
        (buildPayload f).map Prod.fst =
          if fileSelected f.image then
            ["name", "designation", "department", "description", "image"]
          else ["name", "designation", "department", "description"]) ∧
    (∀ f : FormValues,
        ("name", PayloadEntry.text f.name) ∈ buildPayload f ∧
        ("designation", PayloadEntry.text f.designation) ∈ buildPayload f ∧
        ("department", PayloadEntry.text f.department) ∈ buildPayload f ∧
        ("description", PayloadEntry.text f.description) ∈ buildPayload f) ∧
    (∀ f : FormValues, fileSelected f.image = false →
        ∀ e : PayloadEntry, ("image", e) ∉ buildPayload f) ∧
    ((buildPayload { resetValues "42"
          { name := some "John", designation := none, department := none,
            description := none,
            image := ImageValue.ref ⟨none, some "x.png"⟩ } with
          description := "updated" }).map Prod.fst =
      ["name", "designation", "department", "description"]) := by
  have hmap : ∀ f : FormValues,
      (buildPayload f).map Prod.fst =
        if fileSelected f.image then
          ["name", "designation", "department", "description", "image"]
        else ["name", "designation", "department", "description"] := by
    intro f
    rw [buildPayload]
    cases hfs : fileSelected f.image <;>
      simp [selected_eq_fileSelected, hfs]
  refine ⟨hmap, fun f => ?_, fun f hfs e hmem => ?_, ?_⟩
  · rw [buildPayload]
    cases hsel : f.image.selected <;> simp
  · have : ("image" : String) ∈ (buildPayload f).map Prod.fst :=
      List.mem_map.mpr ⟨("image", e), hmem, rfl⟩
    rw [hmap f, hfs] at this
    simp at this
  · exact hmap _ |>.trans (by rfl)

/-- C2 witness. -/
theorem c2_payload_contents_witness :
    ((buildPayload defaultValues).map Prod.fst =
      if fileSelected defaultValues.image then
        ["name", "designation", "department", "description", "image"]
      else ["name", "designation", "department", "description"]) ∧
    ("name", PayloadEntry.text defaultValues.name) ∈ buildPayload defaultValues ∧
    (("image", PayloadEntry.text "x") ∉ buildPayload defaultValues) := by
  exact ⟨c2_payload_contents.1 defaultValues,
    (c2_payload_contents.2.1 defaultValues).1,
    c2_payload_contents.2.2.1 defaultValues (by decide) (PayloadEntry.text "x")⟩

/-- C3 counterexample: the claim says the form's image field always starts
empty after the edit-mode reset, but for a fetched record carrying a
stored image the reset writes that existing server image into the image
form value (it does not keep the empty default). -/
theorem c3_counterexample :
    (resetValues "42"
        { name := some "John", designation := none, department := none,
          description := none,
          image := ImageValue.ref ⟨none, some "x.png"⟩ }).image =
      ImageValue.ref ⟨none, some "x.png"⟩ ∧
    (resetValues "42"
        { name := some "John", designation := none, department := none,
          description := none,
          image := ImageValue.ref ⟨none, some "x.png"⟩ }).image ≠
      defaultValues.image := by
  exact ⟨rfl, by decide⟩

/-- C3 (amended): after a successful fetch every editable text field is
initialized from the fetched record with missing string fields defaulting
to the empty string, and the existing image reference is captured in the
separate existingImage state; however the form's image field is not left
empty: the reset writes the fetched image reference into it (alongside the
hidden existingImage form value). -/
theorem c3_reset_initialization :
    (∀ (i : String) (d : TeamRecord),
        (d.name = none → (resetValues i d).name = "") ∧
        (∀ s, d.name = some s → (resetValues i d).name = s) ∧
        (d.designation = none → (resetValues i d).designation = "") ∧
        (∀ s, d.designation = some s → (resetValues i d).designation = s) ∧
        (d.department = none → (resetValues i d).department = "") ∧
        (∀ s, d.department = some s → (resetValues i d).department = s) ∧
        (d.description = none → (resetValues i d).description = "") ∧
        (∀ s, d.description = some s → (resetValues i d).description = s) ∧
        (resetValues i d).image = d.image ∧
        (resetValues i d).existingImage = d.image ∧
        (resetValues i d).id = some i) ∧
    (∀ d : TeamRecord, d.image.truthy = true → existingImageState d = d.image) ∧
    (∀ d : TeamRecord, d.image.truthy = false →
        existingImageState d = ImageValue.jsNull) := by
  refine ⟨fun i d => ?_, fun d h => ?_, fun d h => ?_⟩
  · refine ⟨fun h => ?_, fun s h => ?_, fun h => ?_, fun s h => ?_,
      fun h => ?_, fun s h => ?_, fun h => ?_, fun s h => ?_, rfl, rfl, rfl⟩ <;>
      simp [resetValues, jsOrEmpty, h]
  · rw [existingImageState, h]
    simp
  · rw [existingImageState, h]
    simp

/-- C3 (amended) witness. -/
theorem c3_reset_initialization_witness :
    ((resetValues "42"
        { name := some "John", designation := none, department := none,
          description := none,
          image := ImageValue.ref ⟨none, some "x.png"⟩ }).designation = "") ∧
    ((resetValues "42"
        { name := some "John", designation := none, department := none,
          description := none,
          image := ImageValue.ref ⟨none, some "x.png"⟩ }).name = "John") ∧
    existingImageState
        { name := some "John", designation := none, department := none,
          description := none,
          image := ImageValue.ref ⟨none, some "x.png"⟩ } =
      ImageValue.ref ⟨none, some "x.png"⟩ := by
  refine ⟨(c3_reset_initialization.1 "42" _).2.2.1 rfl,
    (c3_reset_initialization.1 "42" _).2.1 "John" rfl,
    c3_reset_initialization.2.1 _ (by decide)⟩

/-- C4: with no id the create mutation is dispatched with the payload and
on success the "Team member added successfully!" toast is shown and the
app navigates to "/team"; with a (truthy) id the update mutation is
dispatched with the id and payload, followed by the
"Team member updated successfully!" toast and the same navigation. -/
theorem c4_mode_dispatch :
    (∀ f : FormValues,
        onSubmit none f (Except.ok ()) =
          { trace := [Event.callCreate (buildPayload f),
                      Event.toastSuccess "Team member added successfully!",
                      Event.navigate "/team"]
            formAfter := f }) ∧
    (∀ (i : String) (f : FormValues), i ≠ "" →
        onSubmit (some i) f (Except.ok ()) =
          { trace := [Event.callUpdate i (buildPayload f),
                      Event.toastSuccess "Team member updated successfully!",
                      Event.navigate "/team"]
            formAfter := f }) := by
  refine ⟨fun f => rfl, fun i f h => ?_⟩
  have : strTruthy (some i) = true := by
    simp [strTruthy, h]
  rw [onSubmit, this]
  simp

/-- C4 witness: the create scenario with name "Jane Doe" and a selected
file "photo.png", and an update under id "42". -/
theorem c4_mode_dispatch_witness :
    onSubmit none { defaultValues with
                      name := "Jane Doe"
                      image := ImageValue.files ["photo.png"] } (Except.ok ()) =
      { trace := [Event.callCreate
                    (buildPayload { defaultValues with
                                      name := "Jane Doe"
                                      image := ImageValue.files ["photo.png"] }),
                  Event.toastSuccess "Team member added successfully!",
                  Event.navigate "/team"]
        formAfter := { defaultValues with
                         name := "Jane Doe"
                         image := ImageValue.files ["photo.png"] } } ∧
    onSubmit (some "42") defaultValues (Except.ok ()) =
      { trace := [Event.callUpdate "42" (buildPayload defaultValues),
                  Event.toastSuccess "Team member updated successfully!",
                  Event.navigate "/team"]
        formAfter := defaultValues } := by
  exact ⟨c4_mode_dispatch.1 _, c4_mode_dispatch.2 "42" defaultValues (by decide)⟩

end TeamForm

namespace TeamForm

/-- C5: a failed mutation is caught at the submit boundary: the handler
emits the server-provided message when present (non-empty) and otherwise
the generic "Failed to save team member", never navigates, and leaves the
form field state unchanged. -/
theorem c5_failure_boundary :
    (∀ (routeId : Option String) (f : FormValues) (e : ApiError),
        (onSubmit routeId f (Except.error e)).trace.all
            (fun ev => !ev.isNavigate) = true ∧
        Event.toastError (errMsgOf e) ∈ (onSubmit routeId f (Except.error e)).trace ∧
        (onSubmit routeId f (Except.error e)).formAfter = f) ∧
    (∀ (e : ApiError) (d : ErrData) (m : String),
        e.data = some d → d.message = some m → m ≠ "" → errMsgOf e = m) ∧
    (∀ e : ApiError, e.data = none → errMsgOf e = "Failed to save team member") ∧
    (∀ (e : ApiError) (d : ErrData), e.data = some d → d.message = none →
        errMsgOf e = "Failed to save team member") := by
  refine ⟨fun routeId f e => ?_, fun e d m h1 h2 h3 => ?_, fun e h => ?_,
    fun e d h1 h2 => ?_⟩
  · cases h : strTruthy routeId <;>
      simp [onSubmit, h, Event.isNavigate]
  · simp [errMsgOf, h1, h2, h3]
  · rw [errMsgOf, h]
  · simp [errMsgOf, h1, h2]

/-- C5 witness: the "Name taken" rejection scenario. -/
theorem c5_failure_boundary_witness :
    ((onSubmit none defaultValues
        (Except.error ⟨some ⟨some "Name taken"⟩⟩)).trace.all
          (fun ev => !ev.isNavigate) = true ∧
      Event.toastError (errMsgOf ⟨some ⟨some "Name taken"⟩⟩) ∈
        (onSubmit none defaultValues
          (Except.error ⟨some ⟨some "Name taken"⟩⟩)).trace ∧
      (onSubmit none defaultValues
          (Except.error ⟨some ⟨some "Name taken"⟩⟩)).formAfter = defaultValues) ∧
    errMsgOf ⟨some ⟨some "Name taken"⟩⟩ = "Name taken" ∧
    errMsgOf ⟨none⟩ = "Failed to save team member" ∧
    errMsgOf ⟨some ⟨none⟩⟩ = "Failed to save team member" := by
  refine ⟨c5_failure_boundary.1 none defaultValues _, ?_, ?_, ?_⟩
  · exact c5_failure_boundary.2.1 _ ⟨some "Name taken"⟩ "Name taken" rfl rfl (by decide)
  · exact c5_failure_boundary.2.2.1 ⟨none⟩ rfl
  · exact c5_failure_boundary.2.2.2 ⟨some ⟨none⟩⟩ ⟨none⟩ rfl rfl

/-- C6: every submission attempt dispatches exactly one mutation call (the
first event of the trace, with no further call events), and the navigation
to "/team" appears in the trace exactly when the awaited call resolved
successfully. -/
theorem c6_single_call_then_navigate :
    ∀ (routeId : Option String) (f : FormValues) (result : Except ApiError Unit),
      (∃ c rest, (onSubmit routeId f result).trace = c :: rest ∧
          c.isCall = true ∧ rest.all (fun ev => !ev.isCall) = true) ∧
      (onSubmit routeId f result).trace.countP Event.isCall = 1 ∧
      (Event.navigate "/team" ∈ (onSubmit routeId f result).trace ↔
        result = Except.ok ()) := by
  intro routeId f result
  cases h : strTruthy routeId <;> cases result <;>
    (simp [onSubmit, h, Event.isCall, List.countP_cons, List.countP_nil];
     exact ⟨_, _, ⟨rfl, rfl⟩, rfl, by simp⟩)

/-- C8: clearing the file selection clears the preview; the preview effect
never touches the existingImage state; while a preview and a truthy
existing image are both present, the current image is rendered with the
"will be replaced" note, and with the preview gone it is rendered without
the note. -/
theorem c8_preview_and_existing_image :
    previewEffect (ImageValue.files []) = none ∧
    previewEffect ImageValue.jsNull = none ∧
    (∀ v : ImageValue, fileSelected v = false → previewEffect v = none) ∧
    (∀ (g : String) (gs : List String),
        previewEffect (ImageValue.files (g :: gs)) = some ("dataUrl:" ++ g)) ∧
    (∀ (s : UiState) (w : ImageValue),
        (onImageChange s w).existingImage = s.existingImage) ∧
    (∀ (p : String) (e : ImageValue), e.truthy = true →
        renderImageSection (some p) e =
          { newPreviewShown := true, existingShown := true,
            replaceNoteShown := true }) ∧
    (∀ e : ImageValue, e.truthy = true →
        renderImageSection none e =
          { newPreviewShown := false, existingShown := true,
            replaceNoteShown := false }) := by
  refine ⟨rfl, rfl, fun v h => ?_, fun g gs => ?_, fun s w => rfl,
    fun p e h => ?_, fun e h => ?_⟩
  · rw [previewEffect, selected_eq_fileSelected, h]
    simp
  · simp [previewEffect, ImageValue.selected, ImageValue.lengthVal,
      ImageValue.truthy, ImageValue.atZero]
  · rw [renderImageSection]
    simp [h]
  · rw [renderImageSection]
    simp [h]

/-- C8 witness. -/
theorem c8_preview_and_existing_image_witness :
    previewEffect (ImageValue.files []) = none ∧
    previewEffect (ImageValue.ref ⟨none, some "x.png"⟩) = none ∧
    previewEffect (ImageValue.files ["photo.png"]) = some "dataUrl:photo.png" ∧
    (onImageChange { existingImage := ImageValue.ref ⟨none, some "x.png"⟩,
                     imagePreview := none }
        (ImageValue.files ["photo.png"])).existingImage =
      ImageValue.ref ⟨none, some "x.png"⟩ ∧
    renderImageSection (some "dataUrl:photo.png")
        (ImageValue.ref ⟨none, some "x.png"⟩) =
      { newPreviewShown := true, existingShown := true,
        replaceNoteShown := true } ∧
    renderImageSection none (ImageValue.ref ⟨none, some "x.png"⟩) =
      { newPreviewShown := false, existingShown := true,
        replaceNoteShown := false } := by
  refine ⟨c8_preview_and_existing_image.1,
    c8_preview_and_existing_image.2.2.1 _ (by decide),
    c8_preview_and_existing_image.2.2.2.1 "photo.png" [],
    c8_preview_and_existing_image.2.2.2.2.1 _ _,
    c8_preview_and_existing_image.2.2.2.2.2.1 "dataUrl:photo.png" _ (by decide),
    c8_preview_and_existing_image.2.2.2.2.2.2 _ (by decide)⟩

end TeamForm
